import Mathlib

/-!
Shallow embedding of the esp32c3 movement-sensor control core (src/src/main.rs).

The program is a single wake-cycle function: on every wake it classifies the
wake cause against three retained variables (WAKEUP_LEVEL, SERVER_ADDR,
TIMER_SLEEP, kept in RTC fast memory), then either goes straight back to deep
sleep (fast path) or initializes the radio, runs a discovery handshake or peer
registration, optionally sends one status datagram, and sleeps.

Machine-level aspects (volatile memory access, the ESP-NOW driver, real-time
delays) are modelled by explicit state passing and an environment record that
carries the outcomes of the fallible driver calls and the single datagram that
the 1000 ms receive window may deliver.  Rust `unwrap` on a driver error is
modelled as the `panicked` outcome.
-/

namespace MovementSensor

/-- Wake levels of the level-triggered wake source (esp-hal WakeupLevel). -/
inductive WakeupLevel where
  | High
  | Low
deriving DecidableEq, Repr

/-- MAC addresses are 6 raw bytes in the source (`[u8; 6]`); we keep the byte
list. -/
abbrev MacAddress : Type := List Nat

/-- esp-wifi BROADCAST_ADDRESS, the all-ones address; it doubles as the
"no coordinator known" sentinel for SERVER_ADDR. -/
def BROADCAST_ADDRESS : MacAddress := [0xFF, 0xFF, 0xFF, 0xFF, 0xFF, 0xFF]

/-- The retained state in RTC fast memory: WAKEUP_LEVEL, SERVER_ADDR,
TIMER_SLEEP (main.rs lines 43-48). -/
structure RetainedState where
  wakeup_level : WakeupLevel
  server_addr : MacAddress
  timer_sleep : Bool
deriving DecidableEq, Repr

/-- Wake causes as matched by the source: esp-hal SleepSource::Timer,
SleepSource::Gpio, SleepSource::Undefined, and the catch-all `_` arm. -/
inductive SleepSource where
  | Timer
  | Gpio
  | Undefined
  | Other
deriving DecidableEq, Repr

/-- The negate_wakeup_level! macro (main.rs lines 62-71). -/
def negate_wakeup_level (l : WakeupLevel) : WakeupLevel :=
  match l with
  | .High => .Low
  | .Low => .High

/-- The classifier branch of the cycle (main.rs lines 107-129): the match on
the wake reason, mutating the retained variables and computing send_update
(initialized false at line 107). -/
def classify (s : RetainedState) (cause : SleepSource) : RetainedState × Bool :=
  match cause with
  | .Timer =>
      if s.wakeup_level = .High then
        ({ s with timer_sleep := false }, true)
      else
        (s, false)
  | .Gpio =>
      let r :=
        if s.wakeup_level = .High ∧ s.timer_sleep = false then
          (s, true)
        else if s.wakeup_level = .High ∧ s.timer_sleep = true then
          ({ s with timer_sleep := false }, false)
        else if s.wakeup_level = .Low then
          ({ s with timer_sleep := true }, false)
        else
          (s, false)
      ({ r.1 with wakeup_level := negate_wakeup_level r.1.wakeup_level }, r.2)
  | .Undefined =>
      ({ s with server_addr := BROADCAST_ADDRESS }, false)
  | .Other =>
      (s, false)

/-- A wake source descriptor handed to `sleep_deep`: either the RTC IO
level-wake source on the monitored pin, or a timer of the given duration in
seconds. -/
inductive WakeSource where
  | rtcio (level : WakeupLevel)
  | timer (seconds : Nat)
deriving DecidableEq, Repr

/-- The begin_sleep! macro (main.rs lines 74-81): pass both the pin source and
the 5-second timer when TIMER_SLEEP holds, otherwise the pin source alone.
The rtcio source carries the WAKEUP_LEVEL captured at lines 132-135. -/
def begin_sleep (timer_sleep : Bool) (level : WakeupLevel) : List WakeSource :=
  if timer_sleep then
    [WakeSource.rtcio level, WakeSource.timer 5]
  else
    [WakeSource.rtcio level]

/-- An inbound ESP-NOW datagram as the source reads it: data.info.src_address,
data.info.dst_address, and the payload bytes. -/
structure Datagram where
  src_address : MacAddress
  dst_address : MacAddress
  data : List Nat
deriving DecidableEq, Repr

/-- Environment of one cycle: this node's own MAC, the success/failure of each
fallible driver call the source unwraps, the diagnostic-only wait results of
the two sends, and the at-most-one datagram the 1000 ms receive window yields. -/
structure Env where
  own_mac : MacAddress
  init_ok : Bool
  espnow_new_ok : Bool
  set_channel_ok : Bool
  probe_send_ok : Bool
  probe_wait_ok : Bool
  status_send_ok : Bool
  status_wait_ok : Bool
  response : Option Datagram
deriving DecidableEq, Repr

/-- Terminal outcome of a cycle: a deep-sleep call with its wake-source list
(which never returns), or a panic from an `unwrap` on a driver error. -/
inductive Outcome where
  | sleep (sources : List WakeSource)
  | panicked
deriving DecidableEq, Repr

/-- Observable result of one cycle: final retained state, whether the radio
transport init call was reached, the probe and status datagrams given to
`esp_now.send` (destination and bytes), and the terminal outcome. -/
structure CycleResult where
  state : RetainedState
  radio_init : Bool
  probes : List (MacAddress × List Nat)
  status_sends : List (MacAddress × List Nat)
  outcome : Outcome
deriving DecidableEq, Repr

/-- The discovery receive window (main.rs lines 176-191): match on the
response; a datagram whose dst equals our own MAC makes us adopt its source
address as SERVER_ADDR and clear send_update; anything else changes nothing. -/
def discovery (s : RetainedState) (send_update : Bool) (env : Env) :
    RetainedState × Bool :=
  match env.response with
  | some data =>
      if data.dst_address = env.own_mac then
        ({ s with server_addr := data.src_address }, false)
      else
        (s, send_update)
  | none =>
      (s, send_update)

/-- Lines 192-198: if send_update still holds, send one status datagram
`[0x22, pin]` to the server_addr local variable read at line 162 (whose send
is unwrapped, its wait result only printed), then begin_sleep!. -/
def report_and_sleep (s : RetainedState) (send_update : Bool)
    (server_addr : MacAddress) (pin : Bool) (env : Env)
    (probes : List (MacAddress × List Nat)) : CycleResult :=
  if send_update then
    if env.status_send_ok = false then
      { state := s, radio_init := true, probes := probes, status_sends := [],
        outcome := .panicked }
    else
      { state := s, radio_init := true, probes := probes,
        status_sends := [(server_addr, [0x22, if pin then 1 else 0])],
        outcome := .sleep (begin_sleep s.timer_sleep s.wakeup_level) }
  else
    { state := s, radio_init := true, probes := probes, status_sends := [],
      outcome := .sleep (begin_sleep s.timer_sleep s.wakeup_level) }

/-- The radio path (main.rs lines 144-198): transport init, EspNow bring-up and
set_channel (each unwrapped); then either unicast peer registration (result
discarded) when SERVER_ADDR is concrete, or the discovery handshake: one probe
`[0xF0, 0x00, 0x22]` sent (unwrapped) to the broadcast address, a 1000 ms wait,
and the receive window of `discovery`. -/
def radio_path (s : RetainedState) (send_update : Bool) (pin : Bool)
    (env : Env) : CycleResult :=
  if env.init_ok = false ∨ env.espnow_new_ok = false ∨ env.set_channel_ok = false then
    { state := s, radio_init := true, probes := [], status_sends := [],
      outcome := .panicked }
  else
    let server_addr := s.server_addr
    if server_addr ≠ BROADCAST_ADDRESS then
      report_and_sleep s send_update server_addr pin env []
    else if env.probe_send_ok = false then
      { state := s, radio_init := true, probes := [], status_sends := [],
        outcome := .panicked }
    else
      let r := discovery s send_update env
      report_and_sleep r.1 r.2 server_addr pin env
        [(server_addr, [0xF0, 0x00, 0x22])]

/-- One whole wake cycle (the body of `main`): classify the wake cause, then
the fast-path check of line 139 (sleep directly when SERVER_ADDR is concrete
and no update is pending), else the radio path. -/
def cycle (s0 : RetainedState) (cause : SleepSource) (pin : Bool)
    (env : Env) : CycleResult :=
  let c := classify s0 cause
  if c.1.server_addr ≠ BROADCAST_ADDRESS ∧ c.2 = false then
    { state := c.1, radio_init := false, probes := [], status_sends := [],
      outcome := .sleep (begin_sleep c.1.timer_sleep c.1.wakeup_level) }
  else
    radio_path c.1 c.2 pin env

/-- Iterated cycles: each program execution starts fresh from the retained
state the previous cycle left behind. -/
def runCycles (s : RetainedState) : List (SleepSource × Bool × Env) → RetainedState
  | [] => s
  | (c, p, e) :: rest => runCycles (cycle s c p e).state rest

/-- Iterating the classifier alone over a sequence of wake causes (the only
part of the cycle that touches wakeup_level and timer_sleep). -/
def runCauses (s : RetainedState) : List SleepSource → RetainedState
  | [] => s
  | c :: rest => runCauses (classify s c).1 rest

/-! ## Helper lemmas -/

/-- One classifier step preserves the no-double-arm invariant. -/
lemma classify_preserves_no_double_arm (s : RetainedState) (c : SleepSource)
    (h : s.timer_sleep = true → s.wakeup_level = .High) :
    (classify s c).1.timer_sleep = true → (classify s c).1.wakeup_level = .High := by
  cases c <;> cases hl : s.wakeup_level <;> cases ht : s.timer_sleep <;>
    simp_all [classify, negate_wakeup_level]

/-- The classifier iteration preserves the no-double-arm invariant. -/
lemma runCauses_preserves_no_double_arm (cs : List SleepSource) :
    ∀ s : RetainedState, (s.timer_sleep = true → s.wakeup_level = .High) →
      ((runCauses s cs).timer_sleep = true → (runCauses s cs).wakeup_level = .High) := by
  induction cs with
  | nil => intro s h; simpa [runCauses] using h
  | cons c rest ih =>
      intro s h
      simpa [runCauses] using ih _ (classify_preserves_no_double_arm s c h)

/-- When every unwrapped driver call succeeds, the cycle's outcome is the
deep-sleep call built from the final retained state. -/
lemma cycle_outcome_ok (s0 : RetainedState) (cause : SleepSource) (pin : Bool)
    (env : Env)
    (h1 : env.init_ok = true) (h2 : env.espnow_new_ok = true)
    (h3 : env.set_channel_ok = true) (h4 : env.probe_send_ok = true)
    (h5 : env.status_send_ok = true) :
    (cycle s0 cause pin env).outcome =
      .sleep (begin_sleep (cycle s0 cause pin env).state.timer_sleep
        (cycle s0 cause pin env).state.wakeup_level) := by
  by_cases hf : (classify s0 cause).1.server_addr ≠ BROADCAST_ADDRESS
      ∧ (classify s0 cause).2 = false
  · simp [cycle, hf]
  · by_cases hb : (classify s0 cause).1.server_addr = BROADCAST_ADDRESS
    · by_cases hd : (discovery (classify s0 cause).1 (classify s0 cause).2 env).2 = true
      · simp [cycle, hf, radio_path, report_and_sleep, h1, h2, h3, h4, h5, hb, hd]
      · simp [cycle, hf, radio_path, report_and_sleep, h1, h2, h3, h4, hb, hd]
    · by_cases hu : (classify s0 cause).2 = true
      · simp [cycle, hf, radio_path, report_and_sleep, h1, h2, h3, hb, hu, h5]
      · simp [cycle, hf, radio_path, report_and_sleep, h1, h2, h3, hb, hu]

/-- The classifier never turns a broadcast (unknown) coordinator address into
a concrete one. -/
lemma classify_server_broadcast (s : RetainedState) (c : SleepSource)
    (h : s.server_addr = BROADCAST_ADDRESS) :
    (classify s c).1.server_addr = BROADCAST_ADDRESS := by
  cases c <;> simp only [classify, negate_wakeup_level] <;> (try split_ifs) <;> simp_all

/-- A cycle whose receive window yields no datagram cannot move the
coordinator address off the broadcast sentinel. -/
lemma cycle_state_server_broadcast (s : RetainedState) (c : SleepSource)
    (p : Bool) (e : Env)
    (h : s.server_addr = BROADCAST_ADDRESS) (hr : e.response = none) :
    (cycle s c p e).state.server_addr = BROADCAST_ADDRESS := by
  have hc := classify_server_broadcast s c h
  simp only [cycle, radio_path, report_and_sleep, discovery, hr, hc]
  split_ifs <;> simp_all

/-! ## Claims -/

/-- C1: each of the 7 rows of the WakeClassifier table in spec §4.2 holds of
the classifier branch: (High,false,Timer) keeps (High,false) and emits;
(Low,any,Timer) is a no-op; (High,false,Gpio) goes to (Low,false) and emits;
(High,true,Gpio) goes to (Low,false) silently; (Low,false,Gpio) goes to
(High,true) silently; PowerOn only resets the coordinator address and never
emits; Other is a no-op. -/
theorem C1_wake_classifier_table (a : MacAddress) (armed : Bool) (lvl : WakeupLevel) :
    classify ⟨.High, a, false⟩ .Timer = (⟨.High, a, false⟩, true)
    ∧ classify ⟨.Low, a, armed⟩ .Timer = (⟨.Low, a, armed⟩, false)
    ∧ classify ⟨.High, a, false⟩ .Gpio = (⟨.Low, a, false⟩, true)
    ∧ classify ⟨.High, a, true⟩ .Gpio = (⟨.Low, a, false⟩, false)
    ∧ classify ⟨.Low, a, false⟩ .Gpio = (⟨.High, a, true⟩, false)
    ∧ classify ⟨lvl, a, armed⟩ .Undefined = (⟨lvl, BROADCAST_ADDRESS, armed⟩, false)
    ∧ classify ⟨lvl, a, armed⟩ .Other = (⟨lvl, a, armed⟩, false) := by
  cases armed <;> cases lvl <;>
    simp [classify, negate_wakeup_level]

/-- C2: starting from any state with timer_armed false or wake_level High,
after every completed classifier transition along any sequence of wake causes,
timer_armed true never coexists with wake_level Low. -/
theorem C2_no_double_arm (s : RetainedState)
    (h : s.timer_sleep = false ∨ s.wakeup_level = .High)
    (cs : List SleepSource) (n : Nat) :
    ¬((runCauses s (cs.take n)).timer_sleep = true
      ∧ (runCauses s (cs.take n)).wakeup_level = .Low) := by
  rintro ⟨ht, hl⟩
  have h0 : s.timer_sleep = true → s.wakeup_level = .High := by
    rcases h with h | h
    · intro hc; rw [h] at hc; exact absurd hc (by simp)
    · intro _; exact h
  have := runCauses_preserves_no_double_arm (cs.take n) s h0 ht
  rw [hl] at this
  exact absurd this (by simp)

/-- Witness for C2 at a concrete state and sequence. -/
theorem C2_no_double_arm_witness :
    ¬((runCauses ⟨.High, BROADCAST_ADDRESS, false⟩
        ([SleepSource.Gpio, SleepSource.Gpio, SleepSource.Timer].take 2)).timer_sleep = true
      ∧ (runCauses ⟨.High, BROADCAST_ADDRESS, false⟩
        ([SleepSource.Gpio, SleepSource.Gpio, SleepSource.Timer].take 2)).wakeup_level = .Low) :=
  C2_no_double_arm ⟨.High, BROADCAST_ADDRESS, false⟩ (Or.inl rfl)
    [SleepSource.Gpio, SleepSource.Gpio, SleepSource.Timer] 2

/-- C3 counterexample: with the coordinator unknown, a pending update from a
Timer wake, and a discovery window that yields no reply, the cycle sends a
Status datagram whose destination is the broadcast address — refuting both the
coordinator-known condition and the no-broadcast-Status clause of the claim. -/
theorem C3_counterexample :
    (cycle ⟨.High, BROADCAST_ADDRESS, false⟩ .Timer false
        ⟨[1, 2, 3, 4, 5, 6], true, true, true, true, true, true, true, none⟩).status_sends
      = [(BROADCAST_ADDRESS, [0x22, 0])]
    ∧ (cycle ⟨.High, BROADCAST_ADDRESS, false⟩ .Timer false
        ⟨[1, 2, 3, 4, 5, 6], true, true, true, true, true, true, true, none⟩).state.server_addr
      = BROADCAST_ADDRESS := by
  exact ⟨rfl, rfl⟩

/-- C3 amended: a Status datagram is sent iff send_update is still true after
the discovery or peer-registration step, with no check that the coordinator is
known; its destination is the server address read before discovery, which is
the broadcast address whenever the coordinator is unknown. -/
theorem C3_amended_status_send (s0 : RetainedState) (cause : SleepSource)
    (pin : Bool) (env : Env)
    (h1 : env.init_ok = true) (h2 : env.espnow_new_ok = true)
    (h3 : env.set_channel_ok = true) (h4 : env.probe_send_ok = true)
    (h5 : env.status_send_ok = true) :
    (cycle s0 cause pin env).status_sends =
      if (classify s0 cause).1.server_addr ≠ BROADCAST_ADDRESS
          ∧ (classify s0 cause).2 = false then
        []
      else if (if (classify s0 cause).1.server_addr = BROADCAST_ADDRESS then
                 (discovery (classify s0 cause).1 (classify s0 cause).2 env).2
               else
                 (classify s0 cause).2) = true then
        [((classify s0 cause).1.server_addr, [0x22, if pin then 1 else 0])]
      else
        [] := by
  by_cases hf : (classify s0 cause).1.server_addr ≠ BROADCAST_ADDRESS
      ∧ (classify s0 cause).2 = false
  · simp [cycle, hf]
  · by_cases hb : (classify s0 cause).1.server_addr = BROADCAST_ADDRESS
    · by_cases hd : (discovery (classify s0 cause).1 (classify s0 cause).2 env).2 = true
      · simp [cycle, hf, radio_path, report_and_sleep, h1, h2, h3, h4, h5, hb, hd]
      · simp [cycle, hf, radio_path, report_and_sleep, h1, h2, h3, h4, hb, hd]
    · have hu : (classify s0 cause).2 = true := by
        rcases Bool.eq_false_or_eq_true (classify s0 cause).2 with h | h
        · exact h
        · exact absurd ⟨hb, h⟩ hf
      simp [cycle, hf, radio_path, report_and_sleep, h1, h2, h3, hb, hu, h5]

/-- Witness for the amended C3 at a concrete input: coordinator known, update
pending, so one Status datagram goes to the coordinator. -/
theorem C3_amended_status_send_witness :
    (cycle ⟨.High, [1, 2, 3, 4, 5, 6], false⟩ .Timer true
        ⟨[9, 9, 9, 9, 9, 9], true, true, true, true, true, true, true, none⟩).status_sends =
      if (classify ⟨.High, [1, 2, 3, 4, 5, 6], false⟩ .Timer).1.server_addr ≠ BROADCAST_ADDRESS
          ∧ (classify ⟨.High, [1, 2, 3, 4, 5, 6], false⟩ .Timer).2 = false then
        []
      else if (if (classify ⟨.High, [1, 2, 3, 4, 5, 6], false⟩ .Timer).1.server_addr
                    = BROADCAST_ADDRESS then
                 (discovery (classify ⟨.High, [1, 2, 3, 4, 5, 6], false⟩ .Timer).1
                   (classify ⟨.High, [1, 2, 3, 4, 5, 6], false⟩ .Timer).2
                   ⟨[9, 9, 9, 9, 9, 9], true, true, true, true, true, true, true, none⟩).2
               else
                 (classify ⟨.High, [1, 2, 3, 4, 5, 6], false⟩ .Timer).2) = true then
        [((classify ⟨.High, [1, 2, 3, 4, 5, 6], false⟩ .Timer).1.server_addr,
          [0x22, if true then 1 else 0])]
      else
        [] :=
  C3_amended_status_send ⟨.High, [1, 2, 3, 4, 5, 6], false⟩ .Timer true
    ⟨[9, 9, 9, 9, 9, 9], true, true, true, true, true, true, true, none⟩
    rfl rfl rfl rfl rfl

/-- C4: whenever the post-classification state has a concrete coordinator and
no pending update, the cycle sleeps directly and the radio transport init call
is never reached. -/
theorem C4_fast_path (s0 : RetainedState) (cause : SleepSource) (pin : Bool)
    (env : Env)
    (h1 : (classify s0 cause).1.server_addr ≠ BROADCAST_ADDRESS)
    (h2 : (classify s0 cause).2 = false) :
    (cycle s0 cause pin env).radio_init = false
    ∧ (cycle s0 cause pin env).outcome =
        .sleep (begin_sleep (classify s0 cause).1.timer_sleep
          (classify s0 cause).1.wakeup_level) := by
  simp [cycle, h1, h2]

/-- Witness for C4 at a concrete input: known coordinator, Other wake cause. -/
theorem C4_fast_path_witness :
    (cycle ⟨.Low, [1, 2, 3, 4, 5, 6], false⟩ .Other false
        ⟨[9, 9, 9, 9, 9, 9], true, true, true, true, true, true, true, none⟩).radio_init = false
    ∧ (cycle ⟨.Low, [1, 2, 3, 4, 5, 6], false⟩ .Other false
        ⟨[9, 9, 9, 9, 9, 9], true, true, true, true, true, true, true, none⟩).outcome =
        .sleep (begin_sleep (classify ⟨.Low, [1, 2, 3, 4, 5, 6], false⟩ .Other).1.timer_sleep
          (classify ⟨.Low, [1, 2, 3, 4, 5, 6], false⟩ .Other).1.wakeup_level) :=
  C4_fast_path ⟨.Low, [1, 2, 3, 4, 5, 6], false⟩ .Other false
    ⟨[9, 9, 9, 9, 9, 9], true, true, true, true, true, true, true, none⟩
    (by decide) (by decide)

/-- C5 counterexample: a cycle that reaches the radio path with a failing
transport init call panics (the source unwraps the error) instead of falling
through to deep sleep, refuting the no-halt claim. -/
theorem C5_counterexample :
    (cycle ⟨.High, BROADCAST_ADDRESS, false⟩ .Other false
        ⟨[1, 2, 3, 4, 5, 6], false, true, true, true, true, true, true, none⟩).outcome
      = .panicked := by
  exact rfl

/-- C5 amended: every execution path on which the unwrapped driver calls
(transport init, EspNow bring-up, channel set, and the two send submissions)
succeed terminates in a deep-sleep call; in particular the send-completion
wait results are only logged and never affect the outcome. A failing
unwrapped call, however, panics rather than re-entering sleep. -/
theorem C5_amended_always_sleeps (s0 : RetainedState) (cause : SleepSource)
    (pin : Bool) (env : Env)
    (h1 : env.init_ok = true) (h2 : env.espnow_new_ok = true)
    (h3 : env.set_channel_ok = true) (h4 : env.probe_send_ok = true)
    (h5 : env.status_send_ok = true) :
    ∃ srcs, (cycle s0 cause pin env).outcome = .sleep srcs :=
  ⟨_, cycle_outcome_ok s0 cause pin env h1 h2 h3 h4 h5⟩

/-- Witness for the amended C5 at a concrete input. -/
theorem C5_amended_always_sleeps_witness :
    ∃ srcs, (cycle ⟨.High, BROADCAST_ADDRESS, false⟩ .Timer false
        ⟨[1, 2, 3, 4, 5, 6], true, true, true, true, false, true, false, none⟩).outcome
      = .sleep srcs :=
  C5_amended_always_sleeps ⟨.High, BROADCAST_ADDRESS, false⟩ .Timer false
    ⟨[1, 2, 3, 4, 5, 6], true, true, true, true, false, true, false, none⟩
    rfl rfl rfl rfl rfl

/-- C6: in the discovery receive window, a datagram addressed to this node's
own transport address makes the cycle adopt its source address as the new
coordinator and clear the pending update; any other datagram, or none, leaves
both the retained state and the pending update unchanged. -/
theorem C6_discovery_adoption (s : RetainedState) (u : Bool) (env : Env) :
    (∀ data : Datagram, env.response = some data →
      (data.dst_address = env.own_mac →
        discovery s u env = ({ s with server_addr := data.src_address }, false))
      ∧ (data.dst_address ≠ env.own_mac → discovery s u env = (s, u)))
    ∧ (env.response = none → discovery s u env = (s, u)) := by
  refine ⟨fun data hr => ⟨fun hd => ?_, fun hd => ?_⟩, fun hr => ?_⟩
  · simp [discovery, hr, hd]
  · simp [discovery, hr, hd]
  · simp [discovery, hr]

/-- Witness for C6: a concrete datagram addressed to this node is adopted. -/
theorem C6_discovery_adoption_witness :
    discovery ⟨.High, BROADCAST_ADDRESS, false⟩ true
        ⟨[1, 2, 3, 4, 5, 6], true, true, true, true, true, true, true,
          some ⟨[7, 7, 7, 7, 7, 7], [1, 2, 3, 4, 5, 6], [0]⟩⟩
      = (⟨.High, [7, 7, 7, 7, 7, 7], false⟩, false) :=
  ((C6_discovery_adoption ⟨.High, BROADCAST_ADDRESS, false⟩ true
      ⟨[1, 2, 3, 4, 5, 6], true, true, true, true, true, true, true,
        some ⟨[7, 7, 7, 7, 7, 7], [1, 2, 3, 4, 5, 6], [0]⟩⟩).1
    ⟨[7, 7, 7, 7, 7, 7], [1, 2, 3, 4, 5, 6], [0]⟩ rfl).1 rfl

/-- C7: every cycle that reaches the radio path with an unknown coordinator
sends exactly one Probe datagram (tag 0xF0 plus 2 payload bytes) to the
broadcast address, and across any number of consecutive cycles in which the
receive window stays empty the coordinator address remains the broadcast
(unknown) sentinel after each cycle. -/
theorem C7_idempotent_reprobe :
    (∀ (s : RetainedState) (cause : SleepSource) (pin : Bool) (env : Env),
      (classify s cause).1.server_addr = BROADCAST_ADDRESS →
      env.init_ok = true → env.espnow_new_ok = true → env.set_channel_ok = true →
      env.probe_send_ok = true →
      (cycle s cause pin env).probes = [(BROADCAST_ADDRESS, [0xF0, 0x00, 0x22])]
      ∧ (env.response = none →
          (cycle s cause pin env).state.server_addr = BROADCAST_ADDRESS))
    ∧ (∀ (s : RetainedState) (trace : List (SleepSource × Bool × Env)),
        s.server_addr = BROADCAST_ADDRESS →
        (∀ t ∈ trace, (t.2.2 : Env).response = none) →
        (runCycles s trace).server_addr = BROADCAST_ADDRESS) := by
  constructor
  · intro s cause pin env hs h1 h2 h3 h4
    have hf : ¬((classify s cause).1.server_addr ≠ BROADCAST_ADDRESS
        ∧ (classify s cause).2 = false) := by simp [hs]
    constructor
    · simp only [cycle, radio_path, report_and_sleep, hf, hs, h1, h2, h3, h4]
      split_ifs <;> simp_all
    · intro hr
      simp only [cycle, radio_path, report_and_sleep, discovery, hf, hs, h1, h2, h3, h4, hr]
      split_ifs <;> simp_all
  · intro s trace hs htr
    induction trace generalizing s with
    | nil => simpa [runCycles] using hs
    | cons t rest ih =>
        have h1 := cycle_state_server_broadcast s t.1 t.2.1 t.2.2 hs
          (htr t (List.mem_cons_self t rest))
        have h2 := fun u hu => htr u (List.mem_cons_of_mem t hu)
        simpa [runCycles] using ih _ h1 h2

/-- Witness for C7: one probing cycle with an empty window, then another. -/
theorem C7_idempotent_reprobe_witness :
    (cycle ⟨.High, BROADCAST_ADDRESS, false⟩ .Timer false
        ⟨[1, 2, 3, 4, 5, 6], true, true, true, true, true, true, true, none⟩).probes
      = [(BROADCAST_ADDRESS, [0xF0, 0x00, 0x22])]
    ∧ (runCycles ⟨.High, BROADCAST_ADDRESS, false⟩
        [(.Timer, false, ⟨[1, 2, 3, 4, 5, 6], true, true, true, true, true, true, true, none⟩),
         (.Timer, false, ⟨[1, 2, 3, 4, 5, 6], true, true, true, true, true, true, true, none⟩)]).server_addr
      = BROADCAST_ADDRESS :=
  ⟨(C7_idempotent_reprobe.1 ⟨.High, BROADCAST_ADDRESS, false⟩ .Timer false
      ⟨[1, 2, 3, 4, 5, 6], true, true, true, true, true, true, true, none⟩
      (by decide) rfl rfl rfl rfl).1,
   C7_idempotent_reprobe.2 ⟨.High, BROADCAST_ADDRESS, false⟩
    [(.Timer, false, ⟨[1, 2, 3, 4, 5, 6], true, true, true, true, true, true, true, none⟩),
     (.Timer, false, ⟨[1, 2, 3, 4, 5, 6], true, true, true, true, true, true, true, none⟩)]
    rfl (by intro t ht; fin_cases ht <;> rfl)⟩

/-- C8: the wake-source list handed to the sleep controller always contains
the level-wake source at the current wake level, contains the 5-second timer
source exactly when timer_armed holds, and every deep-sleep call the cycle
makes uses exactly this list built from the final retained state. -/
theorem C8_sleep_sources :
    (∀ (armed : Bool) (lvl : WakeupLevel),
      WakeSource.rtcio lvl ∈ begin_sleep armed lvl
      ∧ (WakeSource.timer 5 ∈ begin_sleep armed lvl ↔ armed = true))
    ∧ (∀ (s0 : RetainedState) (cause : SleepSource) (pin : Bool) (env : Env)
        (srcs : List WakeSource),
        (cycle s0 cause pin env).outcome = Outcome.sleep srcs →
        srcs = begin_sleep (cycle s0 cause pin env).state.timer_sleep
          (cycle s0 cause pin env).state.wakeup_level) := by
  constructor
  · intro armed lvl
    cases armed <;> simp [begin_sleep]
  · intro s0 cause pin env srcs h
    simp only [cycle, radio_path, report_and_sleep] at h ⊢
    split_ifs at h ⊢ <;> simp_all

/-- Witness for C8: the source list of a concrete fast-path cycle. -/
theorem C8_sleep_sources_witness :
    (WakeSource.rtcio .High ∈ begin_sleep true .High
      ∧ (WakeSource.timer 5 ∈ begin_sleep true .High ↔ true = true))
    ∧ [WakeSource.rtcio .Low] =
        begin_sleep (cycle ⟨.Low, [1, 2, 3, 4, 5, 6], false⟩ .Other false
            ⟨[9, 9, 9, 9, 9, 9], true, true, true, true, true, true, true, none⟩).state.timer_sleep
          (cycle ⟨.Low, [1, 2, 3, 4, 5, 6], false⟩ .Other false
            ⟨[9, 9, 9, 9, 9, 9], true, true, true, true, true, true, true, none⟩).state.wakeup_level :=
  ⟨C8_sleep_sources.1 true .High,
   C8_sleep_sources.2 ⟨.Low, [1, 2, 3, 4, 5, 6], false⟩ .Other false
    ⟨[9, 9, 9, 9, 9, 9], true, true, true, true, true, true, true, none⟩
    [WakeSource.rtcio .Low] (by decide)⟩

/-- C9 counterexample: a PowerOn wake with the retained timer_armed flag true
(left as-is by the classifier) and an empty discovery window plans sleep WITH
the 5-second timer source, refuting the no-timer clause of the claim. -/
theorem C9_counterexample :
    (cycle ⟨.High, [1, 2, 3, 4, 5, 6], true⟩ .Undefined false
        ⟨[1, 2, 3, 4, 5, 6], true, true, true, true, true, true, true, none⟩).outcome
      = .sleep [WakeSource.rtcio .High, WakeSource.timer 5] := by
  exact rfl

/-- C9 amended: on a PowerOn wake the coordinator is forced to the broadcast
(unknown) sentinel and the radio path is taken; if the discovery window yields
no reply, sleep is planned with wake_level unchanged, and the timer source is
absent exactly when the retained timer_armed flag — which PowerOn leaves
as-is — was false. -/
theorem C9_amended_power_on (s0 : RetainedState) (pin : Bool) (env : Env)
    (ht : s0.timer_sleep = false)
    (h1 : env.init_ok = true) (h2 : env.espnow_new_ok = true)
    (h3 : env.set_channel_ok = true) (h4 : env.probe_send_ok = true)
    (hr : env.response = none) :
    (classify s0 .Undefined).1.server_addr = BROADCAST_ADDRESS
    ∧ (cycle s0 .Undefined pin env).radio_init = true
    ∧ (cycle s0 .Undefined pin env).outcome =
        .sleep [WakeSource.rtcio s0.wakeup_level] := by
  refine ⟨by simp [classify], ?_, ?_⟩ <;>
    simp [cycle, classify, radio_path, discovery, report_and_sleep, begin_sleep,
      h1, h2, h3, h4, hr, ht]

/-- Witness for the amended C9 at a concrete input. -/
theorem C9_amended_power_on_witness :
    (classify ⟨.Low, [1, 2, 3, 4, 5, 6], false⟩ .Undefined).1.server_addr = BROADCAST_ADDRESS
    ∧ (cycle ⟨.Low, [1, 2, 3, 4, 5, 6], false⟩ .Undefined true
        ⟨[9, 9, 9, 9, 9, 9], true, true, true, true, true, true, true, none⟩).radio_init = true
    ∧ (cycle ⟨.Low, [1, 2, 3, 4, 5, 6], false⟩ .Undefined true
        ⟨[9, 9, 9, 9, 9, 9], true, true, true, true, true, true, true, none⟩).outcome =
        .sleep [WakeSource.rtcio .Low] :=
  C9_amended_power_on ⟨.Low, [1, 2, 3, 4, 5, 6], false⟩ true
    ⟨[9, 9, 9, 9, 9, 9], true, true, true, true, true, true, true, none⟩
    rfl rfl rfl rfl rfl rfl

/-- C10: discovery adoption validates nothing about the reply — the source
address of any datagram addressed to this node is stored verbatim as the
coordinator and the pending update is cleared; when that source address is the
all-ones broadcast value, the stored coordinator equals the Unknown sentinel
even though the update was cleared. -/
theorem C10_verbatim_adoption (s : RetainedState) (u : Bool) (env : Env)
    (data : Datagram)
    (hr : env.response = some data) (hd : data.dst_address = env.own_mac) :
    discovery s u env = ({ s with server_addr := data.src_address }, false)
    ∧ (data.src_address = BROADCAST_ADDRESS →
        (discovery s u env).1.server_addr = BROADCAST_ADDRESS
        ∧ (discovery s u env).2 = false) := by
  refine ⟨?_, fun hsrc => ⟨?_, ?_⟩⟩ <;> simp [discovery, hr, hd, *]

/-- Witness for C10: a reply whose source is the broadcast value is adopted
verbatim, leaving the coordinator at the Unknown sentinel with the update
cleared. -/
theorem C10_verbatim_adoption_witness :
    discovery ⟨.High, BROADCAST_ADDRESS, false⟩ true
        ⟨[1, 2, 3, 4, 5, 6], true, true, true, true, true, true, true,
          some ⟨BROADCAST_ADDRESS, [1, 2, 3, 4, 5, 6], []⟩⟩
      = (⟨.High, BROADCAST_ADDRESS, false⟩, false) :=
  (C10_verbatim_adoption ⟨.High, BROADCAST_ADDRESS, false⟩ true
    ⟨[1, 2, 3, 4, 5, 6], true, true, true, true, true, true, true,
      some ⟨BROADCAST_ADDRESS, [1, 2, 3, 4, 5, 6], []⟩⟩
    ⟨BROADCAST_ADDRESS, [1, 2, 3, 4, 5, 6], []⟩ rfl rfl).1

end MovementSensor
